import Mathlib

/-!
A shallow embedding of the climate-monitor application (`src/app.py`) and a
verification of the specified properties of its analysis engine.

Floating-point values are modelled as real numbers; a float NaN (as produced
by pandas for an incomplete rolling window or an undersized sample) is
modelled as `none` of an `Option`, and the float rule "every comparison with
NaN is false" is made explicit at each comparison site.
-/

namespace ClimateMonitor

/-- The trailing window of samples `[i-W+1, i]` that
`Series.rolling(window=W)` aggregates at index `i`. -/
def window (xs : List ℝ) (W i : ℕ) : List ℝ :=
  (xs.take (i + 1)).drop (i + 1 - W)

/-- Arithmetic mean of a list of temperatures (pandas `.mean()`). -/
noncomputable def mean (xs : List ℝ) : ℝ := xs.sum / xs.length

/-- Unbiased sample variance, pandas default `ddof = 1`. -/
noncomputable def sampleVar (xs : List ℝ) : ℝ :=
  ((xs.map fun x => (x - mean xs) ^ 2).sum) / ((xs.length : ℕ) - 1 : ℝ)

/-- Column `rolling_mean` of `moving_average` at sample index `i`:
`df['temperature'].rolling(window=W).mean()` with the default
`min_periods = W`, so the value is NaN (`none`) while fewer than `W`
samples are available, i.e. while `i + 1 < W`. -/
noncomputable def rolling_mean (xs : List ℝ) (W i : ℕ) : Option ℝ :=
  if W ≤ i + 1 then some (mean (window xs W i)) else none

/-- Column `rolling_std` of `moving_average` at sample index `i`:
`df['temperature'].rolling(window=W).std()`. The value is NaN (`none`)
while fewer than `W` samples are available, and also for `W = 1`, because
the sample standard deviation (`ddof = 1`) of a single observation is NaN. -/
noncomputable def rolling_std (xs : List ℝ) (W i : ℕ) : Option ℝ :=
  if W ≤ i + 1 ∧ 2 ≤ W then some (Real.sqrt (sampleVar (window xs W i))) else none

/-- Column `upper_bound` of `detect_anomalies`:
`df['rolling_mean'] + 2 * df['rolling_std']`, with NaN propagation. -/
noncomputable def upper_bound (xs : List ℝ) (W i : ℕ) : Option ℝ :=
  (rolling_mean xs W i).bind fun m => (rolling_std xs W i).map fun s => m + 2 * s

/-- Column `lower_bound` of `detect_anomalies`:
`df['rolling_mean'] - 2 * df['rolling_std']`, with NaN propagation. -/
noncomputable def lower_bound (xs : List ℝ) (W i : ℕ) : Option ℝ :=
  (rolling_mean xs W i).bind fun m => (rolling_std xs W i).map fun s => m - 2 * s

/-- `t > b` where `b` may be NaN: a float comparison with NaN is false. -/
def gtNaN (t : ℝ) (b : Option ℝ) : Prop := ∃ u, b = some u ∧ u < t

/-- `t < b` where `b` may be NaN: a float comparison with NaN is false. -/
def ltNaN (t : ℝ) (b : Option ℝ) : Prop := ∃ l, b = some l ∧ t < l

/-- Column `anomaly` of `detect_anomalies` at index `i`:
`(df['temperature'] > df['upper_bound']) | (df['temperature'] < df['lower_bound'])`. -/
def anomaly (xs : List ℝ) (W i : ℕ) : Prop :=
  gtNaN (xs.getD i 0) (upper_bound xs W i) ∨ ltNaN (xs.getD i 0) (lower_bound xs W i)

/-! ### Seasonal baseline and classification (`src/app.py` lines 111-120) -/

/-- Three-way outcome of comparing a live reading with the seasonal baseline. -/
inductive Verdict where
  | Normal
  | Anomalous
  | Undetermined
deriving DecidableEq, Repr

/-- Number of occurrences of `s` in the season column. -/
def count (l : List String) (s : String) : ℕ := (l.filter fun x => x = s).length

/-- `df_city['season'].mode()[0]`: the most frequent season label; pandas
`mode()` returns the modes sorted ascending, so `[0]` is the smallest mode
in the string order; `none` when the column is empty. -/
def seasonMode (l : List String) : Option String :=
  (l.filter fun s => l.all fun t => count l t ≤ count l s).min?

/-- `Series.std()` (sample standard deviation, `ddof = 1`): NaN (`none`)
when the series has fewer than 2 observations. -/
noncomputable def sampleStd (xs : List ℝ) : Option ℝ :=
  if 2 ≤ xs.length then some (Real.sqrt (sampleVar xs)) else none

/-- `if lower_bound <= current_temp <= upper_bound: Normal else: Anomalous`.
A NaN bound (`none`) makes the chained comparison false, so control falls
into the `else` branch and the reading is reported anomalous. -/
noncomputable def classify (t : ℝ) (lower upper : Option ℝ) : Verdict :=
  match lower, upper with
  | some lo, some hi => if lo ≤ t ∧ t ≤ hi then .Normal else .Anomalous
  | _, _ => .Anomalous

/-- The seasonal-baseline block: dominant season by `mode()[0]`, then mean
and sample std of the temperatures of that season, bounds `mean ± 2*std`,
and the inclusive range check. When no dominant season exists (empty mode,
or the label is the empty string, which is falsy in `if most_common_season:`)
no classification is performed, which the spec calls `Undetermined`. -/
noncomputable def seasonal_verdict (seasons : List String) (temps : List ℝ) (t : ℝ) :
    Verdict :=
  match seasonMode seasons with
  | none => .Undetermined
  | some s =>
    if s = "" then .Undetermined
    else
      let sub := ((seasons.zip temps).filter fun p => p.1 = s).map fun p => p.2
      let season_mean := mean sub
      let season_std := sampleStd sub
      classify t (season_std.map fun sd => season_mean - 2 * sd)
        (season_std.map fun sd => season_mean + 2 * sd)

/-! ### Weather fetch client (`src/app.py` lines 40-70) -/

/-- A parsed JSON value. JSON numbers are decimal literals, modelled as
rationals. -/
inductive JVal where
  | num (q : ℚ)
  | str (s : String)
  | bool (b : Bool)
  | null
  | obj (fields : List (String × JVal))

/-- Python truthiness of a parsed JSON value. -/
def truthy : JVal → Bool
  | .num q => q ≠ 0
  | .str s => s ≠ ""
  | .bool b => b
  | .null => false
  | .obj fs => !fs.isEmpty

/-- Python `k in d` for a parsed JSON document (key test on a dict). -/
def hasKey (d : JVal) (k : String) : Bool :=
  match d with
  | .obj fs => fs.any fun p => p.1 = k
  | _ => false

/-- Python `d[k]`: `.ok` with the value when `d` is a dict containing `k`;
`.error` models the raised `KeyError` / `TypeError` otherwise. -/
def subscript (d : JVal) (k : String) : Except Unit JVal :=
  match d with
  | .obj fs =>
    match fs.find? fun p => p.1 = k with
    | some p => .ok p.2
    | none => .error ()
  | _ => .error ()

/-- Observable outcome of the block that runs after the fetch returns. -/
inductive BlockOutcome where
  | retrievalError
  | crashed
  | tempOnly (tv : JVal)
  | classified (t : ℝ) (v : Verdict)

/-- The block after the fetch: `if weather_data and "main" in weather_data:`
then `current_temp = weather_data["main"]["temp"]` (an uncaught `KeyError`
when the `main` object has no `temp` key), then the seasonal classification
when a dominant season exists (`if most_common_season:`); the `else` branch
shows `Error retrieving data. Check API key and city name.`. A non-numeric
`temp` value crashes in the bound comparison (`TypeError`). -/
noncomputable def weather_block (weather_data : Option JVal) (seasons : List String)
    (temps : List ℝ) : BlockOutcome :=
  match weather_data with
  | none => .retrievalError
  | some d =>
    if truthy d && hasKey d "main" then
      match (subscript d "main").bind fun m => subscript m "temp" with
      | .error _ => .crashed
      | .ok tv =>
        match seasonMode seasons with
        | none => .tempOnly tv
        | some s =>
          if s = "" then .tempOnly tv
          else
            match tv with
            | .num t => .classified (t : ℝ) (seasonal_verdict seasons temps (t : ℝ))
            | _ => .crashed
    else .retrievalError

/-! ### Series loader (`src/app.py` lines 12-23) -/

/-- Outcome of `load_data`: the parsed frame, the generic
`Data loading error: {e}` path (the `except` arm around `pd.read_csv`), or
the schema rejection, which names the columns listed in the message
`The file must contain columns {required_columns}`. -/
inductive LoadResult where
  | ok (cols : List String)
  | loadError
  | schemaError (named : List String)
deriving DecidableEq, Repr

/-- The four required columns of the input file. -/
def required_columns : List String := ["city", "timestamp", "temperature", "season"]

/-- `pd.read_csv(file, parse_dates=['timestamp'])`, parameterised by the
column list of the uploaded file: pandas raises
`ValueError: Missing column provided to 'parse_dates': 'timestamp'` when the
file has no `timestamp` column, and otherwise returns the parsed frame.
(Other failure modes of `read_csv`, such as an unparseable file, also land
in the `.error` case; they are not distinguished here.) -/
def read_csv (cols : List String) : Except String (List String) :=
  if cols.contains "timestamp" then .ok cols
  else .error "Missing column provided to parse_dates: timestamp"

/-- `load_data` on a file with the given columns: an exception from
`read_csv` is caught and reported as a generic loading error; otherwise the
file is rejected with a message naming the required columns unless they are
all present. -/
def load_data (cols : List String) : LoadResult :=
  match read_csv cols with
  | .error _ => .loadError
  | .ok parsed =>
    if required_columns.all (fun c => parsed.contains c) then .ok parsed
    else .schemaError required_columns

/-! ### DataFrame object model (`moving_average` / `detect_anomalies` as written,
`src/app.py` lines 26-38): both functions assign new columns into the frame
they receive and return that same frame. Object identity is modelled by a
heap of frames addressed by an index; in-place column assignment becomes an
update of the addressed heap cell. -/

/-- The full `rolling_mean` column over a series. -/
noncomputable def rolling_mean_col (xs : List ℝ) (W : ℕ) : List (Option ℝ) :=
  (List.range xs.length).map fun i => rolling_mean xs W i

/-- The full `rolling_std` column over a series. -/
noncomputable def rolling_std_col (xs : List ℝ) (W : ℕ) : List (Option ℝ) :=
  (List.range xs.length).map fun i => rolling_std xs W i

/-- A city dataframe: the base record columns and the derived columns,
`none` while a derived column has not been assigned yet. -/
structure Frame where
  temperature : List ℝ
  season : List String
  rolling_mean : Option (List (Option ℝ))
  rolling_std : Option (List (Option ℝ))
  upper_bound : Option (List (Option ℝ))
  lower_bound : Option (List (Option ℝ))
  anomaly : Option (List Prop)

/-- The frame a dangling reference dereferences to (never used on valid
references). -/
def emptyFrame : Frame := ⟨[], [], none, none, none, none, none⟩

/-- The column assignments of `moving_average` performed on a frame:
`df['rolling_mean'] = ...; df['rolling_std'] = ...`. -/
noncomputable def moving_average_df (df : Frame) (window : ℕ) : Frame :=
  { df with
    rolling_mean := some (rolling_mean_col df.temperature window),
    rolling_std := some (rolling_std_col df.temperature window) }

/-- The column assignments of `detect_anomalies` performed on a frame:
bounds and anomaly flags computed columnwise from the stored rolling
columns with NaN propagation. (The app only calls it after
`moving_average`, so the rolling columns are present.) -/
noncomputable def detect_anomalies_df (df : Frame) : Frame :=
  let ub := List.zipWith (fun m s => m.bind fun mv => s.map fun sv => mv + 2 * sv)
    (df.rolling_mean.getD []) (df.rolling_std.getD [])
  let lb := List.zipWith (fun m s => m.bind fun mv => s.map fun sv => mv - 2 * sv)
    (df.rolling_mean.getD []) (df.rolling_std.getD [])
  let an := List.zipWith (fun t p => gtNaN t p.1 ∨ ltNaN t p.2)
    df.temperature (ub.zip lb)
  { df with upper_bound := some ub, lower_bound := some lb, anomaly := some an }

/-- `moving_average(df, window)`: performs its column assignments on the
frame the caller passed and returns that same frame. -/
noncomputable def moving_average (h : List Frame) (r : ℕ) (window : ℕ) :
    List Frame × ℕ :=
  (h.set r (moving_average_df (h.getD r emptyFrame) window), r)

/-- `detect_anomalies(df)`: performs its column assignments on the frame
the caller passed and returns that same frame. -/
noncomputable def detect_anomalies (h : List Frame) (r : ℕ) : List Frame × ℕ :=
  (h.set r (detect_anomalies_df (h.getD r emptyFrame)), r)

/-! ## Theorems -/

/-- C1 (counterexample): the claim fails at window `W = 1`. Its instance at
the one-sample series `[10]` and `W = 1` asserts that `rolling_std` is
defined at index `0 ≥ W - 1`; the code yields NaN there, because the sample
standard deviation of a single observation is undefined. -/
theorem rolling_std_window_one_none :
    (1 : ℕ) - 1 ≤ 0 ∧ rolling_std [(10 : ℝ)] 1 0 = none := by
  refine ⟨le_refl 0, ?_⟩
  unfold rolling_std
  norm_num

/-- C1 (amended): for every series and positive window `W`, `rolling_mean`
is undefined exactly at indices `i < W - 1`; `rolling_std` is undefined
exactly at indices `i < W - 1` when `W ≥ 2`, and at every index when
`W = 1`; when `W` exceeds the series length both are undefined at every
index. -/
theorem rolling_window_definedness (xs : List ℝ) (W i : ℕ) (hW : 1 ≤ W)
    (hi : i < xs.length) :
    ((rolling_mean xs W i).isSome ↔ W - 1 ≤ i)
    ∧ ((rolling_std xs W i).isSome ↔ (W - 1 ≤ i ∧ 2 ≤ W))
    ∧ (xs.length < W → rolling_mean xs W i = none ∧ rolling_std xs W i = none) := by
  unfold rolling_mean rolling_std
  refine ⟨?_, ?_, fun hlen => ⟨?_, ?_⟩⟩ <;> split <;> simp_all <;> omega

/-- Witness for `rolling_window_definedness` at the series `[1, 2, 3]`,
`W = 2`, `i = 1`. -/
theorem rolling_window_definedness_witness :
    ((1 : ℕ) ≤ 2 ∧ 1 < List.length ([1, 2, 3] : List ℝ))
    ∧ (((rolling_mean [(1 : ℝ), 2, 3] 2 1).isSome ↔ 2 - 1 ≤ 1)
      ∧ ((rolling_std [(1 : ℝ), 2, 3] 2 1).isSome ↔ (2 - 1 ≤ 1 ∧ 2 ≤ 2))
      ∧ (List.length ([1, 2, 3] : List ℝ) < 2 →
          rolling_mean [(1 : ℝ), 2, 3] 2 1 = none ∧ rolling_std [(1 : ℝ), 2, 3] 2 1 = none)) :=
  ⟨⟨by norm_num, by simp⟩,
    rolling_window_definedness [(1 : ℝ), 2, 3] 2 1 (by norm_num) (by simp)⟩

/-- C4: the seasonal range check is inclusive on both boundaries: the
verdict is `Normal` exactly when `μ - 2σ ≤ T ≤ μ + 2σ`, and `Anomalous`
exactly when `T` lies strictly outside that interval. -/
theorem classify_normal_iff_within_bounds (μ σ T : ℝ) :
    (classify T (some (μ - 2 * σ)) (some (μ + 2 * σ)) = Verdict.Normal
      ↔ (μ - 2 * σ ≤ T ∧ T ≤ μ + 2 * σ))
    ∧ (classify T (some (μ - 2 * σ)) (some (μ + 2 * σ)) = Verdict.Anomalous
      ↔ ¬(μ - 2 * σ ≤ T ∧ T ≤ μ + 2 * σ)) := by
  unfold classify
  split <;> simp_all

/-- C8 (counterexample): a file missing only the `timestamp` column is not
rejected with the schema error: `pd.read_csv(parse_dates=['timestamp'])`
raises first, the `except` arm catches it, and the generic
`Data loading error` outcome is returned instead. -/
theorem load_data_missing_timestamp_generic_error :
    load_data ["city", "temperature", "season"] = LoadResult.loadError
    ∧ LoadResult.loadError ≠ LoadResult.schemaError required_columns := by
  exact ⟨rfl, by decide⟩

/-- C8 (amended): a file lacking a required column is always rejected, but
through two different paths. If `timestamp` is present, a missing required
column yields the schema error, whose message names the required columns
and in particular the missing one; if `timestamp` itself is missing, the
date-parsing step raises first and the generic loading error is returned
instead of the schema error. -/
theorem load_data_missing_column_rejected (cols : List String) (c : String)
    (hreq : c ∈ required_columns) (hmiss : c ∉ cols) :
    ("timestamp" ∈ cols →
      load_data cols = LoadResult.schemaError required_columns ∧ c ∈ required_columns)
    ∧ ("timestamp" ∉ cols → load_data cols = LoadResult.loadError) := by
  constructor
  · intro hts
    refine ⟨?_, hreq⟩
    unfold load_data read_csv
    rw [if_pos (List.elem_iff.mpr hts)]
    have hall : required_columns.all (fun c' => cols.contains c') = false := by
      rw [Bool.eq_false_iff]
      intro h
      exact hmiss (List.elem_iff.mp ((List.all_eq_true.mp h) c hreq))
    simp only [hall, Bool.false_eq_true, if_false]
  · intro hts
    unfold load_data read_csv
    have hc : cols.contains "timestamp" = false := by
      rw [Bool.eq_false_iff]
      intro h
      exact hts (List.elem_iff.mp h)
    simp only [hc, Bool.false_eq_true, if_false]

/-- Witness for `load_data_missing_column_rejected`: a file with only
`city`, `timestamp`, `temperature` (no `season`) is rejected with the error
naming `season`. -/
theorem load_data_missing_column_rejected_witness :
    ("season" ∈ required_columns ∧ "season" ∉ ["city", "timestamp", "temperature"])
    ∧ (("timestamp" ∈ ["city", "timestamp", "temperature"] →
        load_data ["city", "timestamp", "temperature"] = LoadResult.schemaError required_columns
        ∧ "season" ∈ required_columns)
      ∧ ("timestamp" ∉ ["city", "timestamp", "temperature"] →
        load_data ["city", "timestamp", "temperature"] = LoadResult.loadError)) :=
  ⟨⟨by decide, by decide⟩,
    load_data_missing_column_rejected ["city", "timestamp", "temperature"] "season"
      (by decide) (by decide)⟩

/-- C6: the code crashes, rather than producing a typed error, on a 200
response whose body has a `main` object without a `temp` key:
`weather_data["main"]["temp"]` raises an uncaught `KeyError`. -/
theorem missing_main_temp_crashes :
    weather_block (some (JVal.obj [("main", JVal.obj [])])) [] []
      = BlockOutcome.crashed := by
  simp [weather_block, truthy, hasKey, subscript, Except.bind, List.find?]

/-- C3: the code violates the claim. For a one-record series (dominant
season `winter`, one temperature `10`), the sample standard deviation of the
one-record subset is NaN, both bounds are NaN, the chained range comparison
is false, and the block reports `Anomalous temperature!` — not
`Undetermined`. -/
theorem single_record_season_verdict_anomalous :
    seasonal_verdict ["winter"] [(10 : ℝ)] 10 = Verdict.Anomalous := by
  have hmode : seasonMode ["winter"] = some "winter" := rfl
  simp [seasonal_verdict, hmode, sampleStd, classify]

/-- At index 4 of `[10,10,10,10,50]` with `W = 3`, the window `[10,10,50]`
contains the spike itself: its mean is `70/3` and its sample std is
`√(4800/9) ≥ 40/3`, so `50` lies inside `mean ± 2·std` and the sample is
not flagged. -/
theorem spike_index4_inside_band : ¬ anomaly [(10 : ℝ), 10, 10, 10, 50] 3 4 := by
  have hmean : mean [(10 : ℝ), 10, 50] = 70 / 3 := by
    simp [mean]
    norm_num
  have hvar : sampleVar [(10 : ℝ), 10, 50] = 4800 / 9 := by
    simp [sampleVar, hmean]
    norm_num
  have hsq : (40 / 3 : ℝ) ≤ Real.sqrt (4800 / 9) := by
    have h2 := Real.sqrt_le_sqrt (show ((40 / 3 : ℝ)) ^ 2 ≤ 4800 / 9 by norm_num)
    rwa [Real.sqrt_sq (by norm_num : (0 : ℝ) ≤ 40 / 3)] at h2
  have hwin : window [(10 : ℝ), 10, 10, 10, 50] 3 4 = [10, 10, 50] := rfl
  have hub : upper_bound [(10 : ℝ), 10, 10, 10, 50] 3 4
      = some (70 / 3 + 2 * Real.sqrt (4800 / 9)) := by
    norm_num [upper_bound, rolling_mean, rolling_std, hwin, hmean, hvar]
  have hlb : lower_bound [(10 : ℝ), 10, 10, 10, 50] 3 4
      = some (70 / 3 - 2 * Real.sqrt (4800 / 9)) := by
    norm_num [lower_bound, rolling_mean, rolling_std, hwin, hmean, hvar]
  unfold anomaly gtNaN ltNaN
  rw [hub, hlb]
  rintro (⟨u, hu, hlt⟩ | ⟨l, hl, hlt⟩)
  · injection hu with hu'
    rw [← hu'] at hlt
    have : ([(10 : ℝ), 10, 10, 10, 50].getD 4 0) = 50 := rfl
    rw [this] at hlt
    linarith
  · injection hl with hl'
    rw [← hl'] at hlt
    have : ([(10 : ℝ), 10, 10, 10, 50].getD 4 0) = 50 := rfl
    rw [this] at hlt
    linarith [Real.sqrt_nonneg (4800 / 9 : ℝ)]

/-- C2 (counterexample): on the series `[10,10,10,10,50]` with `W = 3`, the
claim asserts `isAnomaly = true` at index 4 (temperature 50); the code does
not flag it, because the rolling window at index 4 includes the spike
itself. -/
theorem spike_series_index4_not_flagged : ¬ anomaly [(10 : ℝ), 10, 10, 10, 50] 3 4 :=
  spike_index4_inside_band

/-- C2 (amended): on `[10,10,10,10,50]` with `W = 3`, indices 0 and 1 have
undefined rolling statistics, index 3 has `rolling_mean = 10` and
`rolling_std = 0`, and index 4 (temperature 50) is not flagged as an
anomaly, since the window ending at index 4 contains the spike. -/
theorem spike_series_enrichment :
    rolling_mean [(10 : ℝ), 10, 10, 10, 50] 3 0 = none
    ∧ rolling_std [(10 : ℝ), 10, 10, 10, 50] 3 0 = none
    ∧ rolling_mean [(10 : ℝ), 10, 10, 10, 50] 3 1 = none
    ∧ rolling_std [(10 : ℝ), 10, 10, 10, 50] 3 1 = none
    ∧ rolling_mean [(10 : ℝ), 10, 10, 10, 50] 3 3 = some 10
    ∧ rolling_std [(10 : ℝ), 10, 10, 10, 50] 3 3 = some 0
    ∧ ¬ anomaly [(10 : ℝ), 10, 10, 10, 50] 3 4 := by
  have hwin3 : window [(10 : ℝ), 10, 10, 10, 50] 3 3 = [10, 10, 10] := rfl
  have hmean3 : mean [(10 : ℝ), 10, 10] = 10 := by
    simp [mean]
    norm_num
  have hvar3 : sampleVar [(10 : ℝ), 10, 10] = 0 := by
    simp [sampleVar, hmean3]
  refine ⟨by norm_num [rolling_mean], by norm_num [rolling_std],
    by norm_num [rolling_mean], by norm_num [rolling_std], ?_, ?_,
    spike_index4_inside_band⟩
  · norm_num [rolling_mean, hwin3, hmean3]
  · norm_num [rolling_std, hwin3, hvar3]

/-- The rolling window of a constant series is a constant list. -/
theorem window_replicate (c : ℝ) (n W i : ℕ) (hW : W ≤ i + 1) (hi : i < n) :
    window (List.replicate n c) W i = List.replicate W c := by
  unfold window
  rw [List.take_replicate, List.drop_replicate]
  congr 1
  omega

/-- The mean of a nonempty constant list is the constant. -/
theorem mean_replicate (c : ℝ) (k : ℕ) (hk : k ≠ 0) :
    mean (List.replicate k c) = c := by
  unfold mean
  rw [List.sum_replicate, List.length_replicate, nsmul_eq_mul]
  field_simp

/-- The sample variance of a constant list is zero. -/
theorem sampleVar_replicate (c : ℝ) (k : ℕ) : sampleVar (List.replicate k c) = 0 := by
  cases k with
  | zero => simp [sampleVar]
  | succ m =>
    unfold sampleVar
    rw [mean_replicate c (m + 1) (Nat.succ_ne_zero m), List.map_replicate]
    simp

/-- C7: on a constant series every index with defined rolling statistics has
`rolling_std = 0` and `upper_bound = lower_bound = c`, and no index of the
series is flagged as an anomaly. -/
theorem constant_series_no_anomalies (c : ℝ) (n W i : ℕ) (hW : 1 ≤ W) (hi : i < n) :
    ((rolling_std (List.replicate n c) W i).isSome →
      rolling_std (List.replicate n c) W i = some 0
      ∧ upper_bound (List.replicate n c) W i = some c
      ∧ lower_bound (List.replicate n c) W i = some c)
    ∧ ¬ anomaly (List.replicate n c) W i := by
  by_cases hdef : W ≤ i + 1 ∧ 2 ≤ W
  · have hwin := window_replicate c n W i hdef.1 hi
    have hstd : rolling_std (List.replicate n c) W i = some 0 := by
      unfold rolling_std
      rw [if_pos hdef, hwin, sampleVar_replicate, Real.sqrt_zero]
    have hmean : rolling_mean (List.replicate n c) W i = some c := by
      unfold rolling_mean
      rw [if_pos hdef.1, hwin, mean_replicate c W (by omega)]
    have hub : upper_bound (List.replicate n c) W i = some c := by
      unfold upper_bound
      rw [hmean, hstd]
      simp
    have hlb : lower_bound (List.replicate n c) W i = some c := by
      unfold lower_bound
      rw [hmean, hstd]
      simp
    refine ⟨fun _ => ⟨hstd, hub, hlb⟩, ?_⟩
    unfold anomaly gtNaN ltNaN
    rw [hub, hlb]
    have hget : (List.replicate n c).getD i 0 = c := by
      rw [List.getD_eq_getElem?_getD, List.getElem?_replicate, if_pos hi]
      rfl
    rw [hget]
    rintro (⟨u, hu, hlt⟩ | ⟨l, hl, hlt⟩)
    · injection hu with hu'
      rw [← hu'] at hlt
      exact lt_irrefl c hlt
    · injection hl with hl'
      rw [← hl'] at hlt
      exact lt_irrefl c hlt
  · have hstd : rolling_std (List.replicate n c) W i = none := by
      unfold rolling_std
      rw [if_neg hdef]
    have hub : upper_bound (List.replicate n c) W i = none := by
      unfold upper_bound
      rw [hstd]
      cases rolling_mean (List.replicate n c) W i <;> rfl
    have hlb : lower_bound (List.replicate n c) W i = none := by
      unfold lower_bound
      rw [hstd]
      cases rolling_mean (List.replicate n c) W i <;> rfl
    refine ⟨fun hs => absurd hs (by rw [hstd]; simp), ?_⟩
    unfold anomaly gtNaN ltNaN
    rw [hub, hlb]
    rintro (⟨u, hu, _⟩ | ⟨l, hl, _⟩) <;> simp_all

/-- Witness for `constant_series_no_anomalies` at `c = 5`, `n = 3`, `W = 2`,
`i = 1`. -/
theorem constant_series_no_anomalies_witness :
    ((1 : ℕ) ≤ 2 ∧ 1 < 3)
    ∧ (((rolling_std (List.replicate 3 (5 : ℝ)) 2 1).isSome →
        rolling_std (List.replicate 3 (5 : ℝ)) 2 1 = some 0
        ∧ upper_bound (List.replicate 3 (5 : ℝ)) 2 1 = some 5
        ∧ lower_bound (List.replicate 3 (5 : ℝ)) 2 1 = some 5)
      ∧ ¬ anomaly (List.replicate 3 (5 : ℝ)) 2 1) :=
  ⟨⟨by norm_num, by norm_num⟩,
    constant_series_no_anomalies 5 3 2 1 (by norm_num) (by norm_num)⟩

/-- The rolling window at an index inside a prefix is unchanged by
appending further samples. -/
theorem window_append (xs ys : List ℝ) (W i : ℕ) (hi : i < xs.length) :
    window (xs ++ ys) W i = window xs W i := by
  unfold window
  rw [List.take_append_of_le_length (by omega)]

/-- C10: every enriched value and the anomaly flag at index `i` depend only
on the trailing window ending at `i`: appending records to the series does
not change them at indices of the original prefix. -/
theorem enrichment_prefix_stable (xs ys : List ℝ) (W i : ℕ) (hi : i < xs.length) :
    rolling_mean (xs ++ ys) W i = rolling_mean xs W i
    ∧ rolling_std (xs ++ ys) W i = rolling_std xs W i
    ∧ upper_bound (xs ++ ys) W i = upper_bound xs W i
    ∧ lower_bound (xs ++ ys) W i = lower_bound xs W i
    ∧ (anomaly (xs ++ ys) W i ↔ anomaly xs W i) := by
  have hw := window_append xs ys W i hi
  have hm : rolling_mean (xs ++ ys) W i = rolling_mean xs W i := by
    unfold rolling_mean
    rw [hw]
  have hs : rolling_std (xs ++ ys) W i = rolling_std xs W i := by
    unfold rolling_std
    rw [hw]
  have hu : upper_bound (xs ++ ys) W i = upper_bound xs W i := by
    unfold upper_bound
    rw [hm, hs]
  have hl : lower_bound (xs ++ ys) W i = lower_bound xs W i := by
    unfold lower_bound
    rw [hm, hs]
  have hg : (xs ++ ys).getD i 0 = xs.getD i 0 := by
    rw [List.getD_eq_getElem?_getD, List.getD_eq_getElem?_getD, List.getElem?_append,
      if_pos hi]
  refine ⟨hm, hs, hu, hl, ?_⟩
  unfold anomaly
  rw [hu, hl, hg]

/-- Witness for `enrichment_prefix_stable` at `xs = [1, 2]`, `ys = [3]`,
`W = 2`, `i = 1`. -/
theorem enrichment_prefix_stable_witness :
    1 < List.length ([1, 2] : List ℝ)
    ∧ (rolling_mean ([(1 : ℝ), 2] ++ [3]) 2 1 = rolling_mean [(1 : ℝ), 2] 2 1
      ∧ rolling_std ([(1 : ℝ), 2] ++ [3]) 2 1 = rolling_std [(1 : ℝ), 2] 2 1
      ∧ upper_bound ([(1 : ℝ), 2] ++ [3]) 2 1 = upper_bound [(1 : ℝ), 2] 2 1
      ∧ lower_bound ([(1 : ℝ), 2] ++ [3]) 2 1 = lower_bound [(1 : ℝ), 2] 2 1
      ∧ (anomaly ([(1 : ℝ), 2] ++ [3]) 2 1 ↔ anomaly [(1 : ℝ), 2] 2 1)) :=
  ⟨by simp, enrichment_prefix_stable [(1 : ℝ), 2] [3] 2 1 (by simp)⟩

/-- Reading back the heap cell a frame was just stored in. -/
theorem getD_set_self (h : List Frame) (r : ℕ) (df : Frame) (hr : r < h.length) :
    (h.set r df).getD r emptyFrame = df := by
  rw [List.getD_eq_getElem?_getD, List.getElem?_set]
  simp [hr]

/-- C9 (counterexample): `moving_average` mutates the frame the caller
passed. On a heap holding one frame with only the base columns, the call
returns the same reference, and the frame at that reference afterwards
carries a `rolling_mean` column, so it differs from the frame that was
passed in. -/
theorem moving_average_mutates_argument :
    ((moving_average [⟨[(1 : ℝ), 2], ["w", "w"], none, none, none, none, none⟩] 0 2).2 = 0)
    ∧ (moving_average [⟨[(1 : ℝ), 2], ["w", "w"], none, none, none, none, none⟩] 0 2).1.getD
        0 emptyFrame
      ≠ ⟨[(1 : ℝ), 2], ["w", "w"], none, none, none, none, none⟩ := by
  refine ⟨rfl, fun hEq => ?_⟩
  have h2 := congrArg Frame.rolling_mean hEq
  exact Option.noConfusion h2

/-- C9 (amended): `moving_average` and `detect_anomalies` mutate the
received frame in place — they assign the derived columns into it and
return the same reference — while leaving the base record columns
(`temperature`, `season`) unchanged, and `detect_anomalies` also leaves the
previously assigned rolling columns unchanged. -/
theorem enrichment_functions_mutate_in_place (h : List Frame) (r W : ℕ)
    (hr : r < h.length) :
    ((moving_average h r W).2 = r)
    ∧ ((moving_average h r W).1.getD r emptyFrame).temperature
        = (h.getD r emptyFrame).temperature
    ∧ ((moving_average h r W).1.getD r emptyFrame).season = (h.getD r emptyFrame).season
    ∧ ((moving_average h r W).1.getD r emptyFrame).rolling_mean
        = some (rolling_mean_col (h.getD r emptyFrame).temperature W)
    ∧ ((moving_average h r W).1.getD r emptyFrame).rolling_std
        = some (rolling_std_col (h.getD r emptyFrame).temperature W)
    ∧ ((detect_anomalies h r).2 = r)
    ∧ ((detect_anomalies h r).1.getD r emptyFrame).temperature
        = (h.getD r emptyFrame).temperature
    ∧ ((detect_anomalies h r).1.getD r emptyFrame).season = (h.getD r emptyFrame).season
    ∧ ((detect_anomalies h r).1.getD r emptyFrame).rolling_mean
        = (h.getD r emptyFrame).rolling_mean
    ∧ ((detect_anomalies h r).1.getD r emptyFrame).rolling_std
        = (h.getD r emptyFrame).rolling_std := by
  have hma : (moving_average h r W).1.getD r emptyFrame
      = moving_average_df (h.getD r emptyFrame) W := getD_set_self h r _ hr
  have hda : (detect_anomalies h r).1.getD r emptyFrame
      = detect_anomalies_df (h.getD r emptyFrame) := getD_set_self h r _ hr
  refine ⟨rfl, ?_, ?_, ?_, ?_, rfl, ?_, ?_, ?_, ?_⟩ <;> simp only [hma, hda] <;> rfl

/-- Witness for `enrichment_functions_mutate_in_place` on a one-frame heap. -/
theorem enrichment_functions_mutate_in_place_witness :
    0 < List.length [emptyFrame]
    ∧ (((moving_average [emptyFrame] 0 3).2 = 0)
      ∧ ((moving_average [emptyFrame] 0 3).1.getD 0 emptyFrame).temperature
          = ([emptyFrame].getD 0 emptyFrame).temperature
      ∧ ((moving_average [emptyFrame] 0 3).1.getD 0 emptyFrame).season
          = ([emptyFrame].getD 0 emptyFrame).season
      ∧ ((moving_average [emptyFrame] 0 3).1.getD 0 emptyFrame).rolling_mean
          = some (rolling_mean_col ([emptyFrame].getD 0 emptyFrame).temperature 3)
      ∧ ((moving_average [emptyFrame] 0 3).1.getD 0 emptyFrame).rolling_std
          = some (rolling_std_col ([emptyFrame].getD 0 emptyFrame).temperature 3)
      ∧ ((detect_anomalies [emptyFrame] 0).2 = 0)
      ∧ ((detect_anomalies [emptyFrame] 0).1.getD 0 emptyFrame).temperature
          = ([emptyFrame].getD 0 emptyFrame).temperature
      ∧ ((detect_anomalies [emptyFrame] 0).1.getD 0 emptyFrame).season
          = ([emptyFrame].getD 0 emptyFrame).season
      ∧ ((detect_anomalies [emptyFrame] 0).1.getD 0 emptyFrame).rolling_mean
          = ([emptyFrame].getD 0 emptyFrame).rolling_mean
      ∧ ((detect_anomalies [emptyFrame] 0).1.getD 0 emptyFrame).rolling_std
          = ([emptyFrame].getD 0 emptyFrame).rolling_std) :=
  ⟨by simp, enrichment_functions_mutate_in_place [emptyFrame] 0 3 (by simp)⟩

end ClimateMonitor
